import Mathlib

/-!
Verification of the PortfolioPro backend (Express/PostgreSQL CRUD server).

The development shallowly embeds the request handlers of the server:
JSON values, database rows (column/value association lists), the dynamic
partial-update query builder, the ownership gate, subdomain generation,
authentication, registration/login, project creation and listing,
publishing, and the static-export stub.  Handlers are pure functions from
an explicit database state (plus request data and a clock value) to a
status code, response data, the successor database state, and a trace of
database operations.
-/

namespace PortfolioPro

/-- A JSON value as it flows through these handlers: the schema's column
types are TEXT, INTEGER/TIMESTAMP (embedded as integers), BOOLEAN and
TEXT[]; payload fields may also be `null` (meaning "clear field"). -/
inductive JsonVal where
  | jNull : JsonVal
  | jStr (s : String) : JsonVal
  | jNum (n : Int) : JsonVal
  | jBool (b : Bool) : JsonVal
  | jStrArr (xs : List String) : JsonVal
deriving DecidableEq, Repr

open JsonVal

/-- A database row: association list from column name to value. -/
abbrev Row : Type := List (String × JsonVal)

/-- Read a column of a row (column names are unique in a SQL row, the
first binding wins). -/
def rowGet : Row → String → Option JsonVal
  | [], _ => none
  | kv :: rest, k => if kv.1 == k then some kv.2 else rowGet rest k

/-- Set an existing column of a row.  A key that is not a column of the
row is left without effect (in SQL, referencing an unknown column makes
the whole statement fail, so no row is ever updated through it). -/
def rowSet : Row → String → JsonVal → Row
  | [], _, _ => []
  | kv :: rest, k, v => (if kv.1 == k then (kv.1, v) else kv) :: rowSet rest k v

/-- Apply a SET clause (list of column/value assignments) left to right. -/
def applySet (r : Row) (clause : List (String × JsonVal)) : Row :=
  clause.foldl (fun acc kv => rowSet acc kv.1 kv.2) r

/-! ## Dynamic partial-update builder (PUT /api/sites/:site_id and
PUT /api/sites/:site_id/projects/:project_id)

A request payload is a list of key/value entries in encounter order; a
value of `none` embeds the JavaScript `undefined` (key present but
absent value), while `some jNull` is an explicit `null`. -/

/-- The protected keys of the site update loop:
`key !== 'site_id' && value !== undefined`. -/
def siteProtectedKeys : List String := ["site_id"]

/-- The protected keys of the project update loop:
`key !== 'id' && key !== 'project_id' && key !== 'site_id' && value !== undefined`. -/
def projectProtectedKeys : List String := ["id", "project_id", "site_id"]

/-- The mutable loop state of the dynamic UPDATE construction:
`update_fields`, `values` and `value_index` of the handlers. -/
structure UpdateAccum where
  update_fields : List String
  values : List JsonVal
  value_index : Nat
deriving DecidableEq, Repr

/-- One iteration of `for (const [key, value] of Object.entries(updates))`:
a protected key or an undefined value is skipped, every other entry
appends `key = $value_index` and pushes its value. -/
def updateStep (pk : List String) (acc : UpdateAccum) (kv : String × Option JsonVal) :
    UpdateAccum :=
  match kv.2 with
  | none => acc
  | some v =>
    if kv.1 ∈ pk then acc
    else { update_fields := acc.update_fields ++ [kv.1 ++ " = $" ++ toString acc.value_index]
           values := acc.values ++ [v]
           value_index := acc.value_index + 1 }

/-- The full loop, started from `update_fields = []`, `values = []`,
`value_index = 1`. -/
def buildUpdateFields (pk : List String) (payload : List (String × Option JsonVal)) :
    UpdateAccum :=
  payload.foldl (updateStep pk) ⟨[], [], 1⟩

/-- The payload entries that survive the filter, in encounter order
(specification-side companion of the loop, used to state its
correctness). -/
def keptEntries (pk : List String) (payload : List (String × Option JsonVal)) :
    List (String × JsonVal) :=
  payload.filterMap (fun kv =>
    match kv.2 with
    | none => none
    | some v => if kv.1 ∈ pk then none else some (kv.1, v))

/-- The SET items `key = $i` produced for a kept list starting at
placeholder index `i`. -/
def specFields : List (String × JsonVal) → Nat → List String
  | [], _ => []
  | kv :: rest, i => (kv.1 ++ " = $" ++ toString i) :: specFields rest (i + 1)

/-! ## Handler embedding

A handler returns an HTTP outcome, the successor database state and the
trace of SQL statements it issued, in order. -/

/-- Outcome of a mutation handler: status plus either the returned row
(`RETURNING *`) or an error code. -/
inductive HandlerResult where
  | ok (status : Nat) (body : Row) : HandlerResult
  | err (status : Nat) (error_code : String) : HandlerResult
deriving DecidableEq, Repr

/-- A database statement issued by a handler. -/
inductive DbOp where
  | lookup (table : String) (key : String) : DbOp
  | update (table : String) (key : String) : DbOp
  | insert (table : String) (key : String) : DbOp
  | delete (table : String) (key : String) : DbOp
  | rollback : DbOp
deriving DecidableEq, Repr

/-- PUT /api/sites/:site_id (after `authenticateToken`): one ownership
lookup (`SELECT user_id FROM portfolio_sites WHERE site_id = $1`),
404 when no row matches, 403 when the owner differs from the principal,
400 when no payload field survives the filter, otherwise the single
dynamic UPDATE whose SET clause is the kept entries followed by the
trailing `updated_at` assignment, applied to every row matching the id. -/
def putSiteHandler (db : List Row) (principal_id site_id : String)
    (updates : List (String × Option JsonVal)) (now : Int) :
    HandlerResult × List Row × List DbOp :=
  match db.find? (fun r => rowGet r "site_id" == some (jStr site_id)) with
  | none => (.err 404 "SITE_NOT_FOUND", db, [.lookup "portfolio_sites" site_id])
  | some siteRow =>
    if rowGet siteRow "user_id" == some (jStr principal_id) then
      let acc := buildUpdateFields siteProtectedKeys updates
      if acc.update_fields.isEmpty then
        (.err 400 "NO_UPDATE_FIELDS", db, [.lookup "portfolio_sites" site_id])
      else
        let clause := keptEntries siteProtectedKeys updates ++ [("updated_at", jNum now)]
        (.ok 200 (applySet siteRow clause),
         db.map (fun r =>
           if rowGet r "site_id" == some (jStr site_id) then applySet r clause else r),
         [.lookup "portfolio_sites" site_id, .update "portfolio_sites" site_id])
    else
      (.err 403 "ACCESS_DENIED", db, [.lookup "portfolio_sites" site_id])

/-- PUT /api/sites/:site_id/projects/:project_id (after
`authenticateToken`): the ownership lookup joins the project row with
its owning site (`WHERE pp.project_id = $1 AND pp.site_id = $2`), so a
missing project or a missing site row both yield the empty join and
404; then the same dynamic UPDATE loop with the project's protected
keys, the UPDATE matching on `project_id` alone. -/
def putProjectHandler (sitesDb projectsDb : List Row)
    (principal_id site_id project_id : String)
    (updates : List (String × Option JsonVal)) (now : Int) :
    HandlerResult × List Row × List DbOp :=
  match projectsDb.find? (fun r =>
      rowGet r "project_id" == some (jStr project_id) &&
      rowGet r "site_id" == some (jStr site_id)) with
  | none => (.err 404 "PROJECT_NOT_FOUND", projectsDb, [.lookup "portfolio_projects" project_id])
  | some projectRow =>
    match sitesDb.find? (fun s => rowGet s "site_id" == some (jStr site_id)) with
    | none => (.err 404 "PROJECT_NOT_FOUND", projectsDb, [.lookup "portfolio_projects" project_id])
    | some siteRow =>
      if rowGet siteRow "user_id" == some (jStr principal_id) then
        let acc := buildUpdateFields projectProtectedKeys updates
        if acc.update_fields.isEmpty then
          (.err 400 "NO_UPDATE_FIELDS", projectsDb, [.lookup "portfolio_projects" project_id])
        else
          let clause := keptEntries projectProtectedKeys updates ++ [("updated_at", jNum now)]
          (.ok 200 (applySet projectRow clause),
           projectsDb.map (fun r =>
             if rowGet r "project_id" == some (jStr project_id) then applySet r clause else r),
           [.lookup "portfolio_projects" project_id, .update "portfolio_projects" project_id])
      else
        (.err 403 "ACCESS_DENIED", projectsDb, [.lookup "portfolio_projects" project_id])

/-- PUT /api/sites/:site_id/publish (after `authenticateToken`): the
same ownership gate, then
`UPDATE portfolio_sites SET published_at = CURRENT_TIMESTAMP,
updated_at = CURRENT_TIMESTAMP WHERE site_id = $1 RETURNING *`. -/
def publishSiteHandler (db : List Row) (principal_id site_id : String) (now : Int) :
    HandlerResult × List Row × List DbOp :=
  match db.find? (fun r => rowGet r "site_id" == some (jStr site_id)) with
  | none => (.err 404 "SITE_NOT_FOUND", db, [.lookup "portfolio_sites" site_id])
  | some siteRow =>
    if rowGet siteRow "user_id" == some (jStr principal_id) then
      let clause := [("published_at", jNum now), ("updated_at", jNum now)]
      (.ok 200 (applySet siteRow clause),
       db.map (fun r =>
         if rowGet r "site_id" == some (jStr site_id) then applySet r clause else r),
       [.lookup "portfolio_sites" site_id, .update "portfolio_sites" site_id])
    else
      (.err 403 "ACCESS_DENIED", db, [.lookup "portfolio_sites" site_id])

/-! ## Unique subdomain generation (`generateUniqueSubdomain`) -/

/-- `username.toLowerCase().replace(/[^a-z0-9]/g, '')`: lower-case each
character, then keep only the characters matching `[a-z0-9]`. -/
def subdomainBase (username : String) : String :=
  String.mk (((username.toList).map Char.toLower).filter
    (fun c => ('a' ≤ c ∧ c ≤ 'z') ∨ ('0' ≤ c ∧ c ≤ '9')))

/-- The k-th candidate probed by the loop: the base itself, then
`base1`, `base2`, ... -/
def subdomainCandidate (base : String) (k : Nat) : String :=
  if k = 0 then base else base ++ toString k

/-- The `while (true)` probe loop.  The loop variable `current` is
always `subdomainCandidate base k` and the source's `counter` is
`k + 1`; the recursion is bounded by explicit fuel since the source
loop has no syntactic bound. -/
def probeFrom (taken : List String) (base : String) : Nat → Nat → Option String
  | 0, _ => none
  | fuel + 1, k =>
    let current := subdomainCandidate base k
    if current ∈ taken then probeFrom taken base fuel (k + 1) else some current

/-- `generateUniqueSubdomain(username)` against the set of subdomains
already present in `portfolio_sites`. -/
def generateUniqueSubdomain (taken : List String) (username : String) (fuel : Nat) :
    Option String :=
  probeFrom taken (subdomainBase username) fuel 0

/-! ## Authentication middleware and credential endpoints -/

/-- The authentication-relevant view of a request: the bearer token is
either absent, rejected by `jwt.verify` (invalid or expired), or
verifies to a payload carrying a `user_id`. -/
inductive TokenState where
  | missing : TokenState
  | invalid : TokenState
  | validFor (user_id : String) : TokenState
deriving DecidableEq, Repr

/-- `authenticateToken`: absent token → 401 AUTH_TOKEN_MISSING;
`jwt.verify` throwing (invalid or expired token) → 403
AUTH_TOKEN_INVALID; a verified token whose `user_id` matches no user
row → 401 AUTH_USER_NOT_FOUND; otherwise the user row is attached to
the request. -/
def authenticateToken (users : List Row) (t : TokenState) :
    Except (Nat × String) Row :=
  match t with
  | .missing => .error (401, "AUTH_TOKEN_MISSING")
  | .invalid => .error (403, "AUTH_TOKEN_INVALID")
  | .validFor uid =>
    match users.find? (fun r => rowGet r "id" == some (jStr uid)) with
    | none => .error (401, "AUTH_USER_NOT_FOUND")
    | some r => .ok r

/-- The database statements issued by `authenticateToken` itself (the
user lookup happens only when the token verifies). -/
def authTrace (t : TokenState) : List DbOp :=
  match t with
  | .missing => []
  | .invalid => []
  | .validFor uid => [.lookup "users" uid]

/-- Running a protected route: the middleware runs first and a rejected
request never reaches the endpoint handler, so the database state is
unchanged and only the middleware's own user lookup was issued. -/
def runProtected (users : List Row) (t : TokenState)
    (handler : Row → HandlerResult × List Row × List DbOp) (db : List Row) :
    HandlerResult × List Row × List DbOp :=
  match authenticateToken users t with
  | .error e => (.err e.1 e.2, db, authTrace t)
  | .ok user =>
    let (res, db', ops) := handler user
    (res, db', authTrace t ++ ops)

/-- JavaScript falsiness of a possibly-undefined value, as used by the
`if (!field)` validation checks. -/
def jsFalsy : Option JsonVal → Bool
  | none => true
  | some jNull => true
  | some (jStr s) => s.isEmpty
  | some (jNum n) => n == 0
  | some (jBool b) => !b
  | some (jStrArr _) => false

/-- `value.length < 6` in JavaScript: defined for strings (and arrays);
for other values `.length` is `undefined` and the comparison is false. -/
def jsLengthLt (v : JsonVal) (n : Nat) : Bool :=
  match v with
  | jStr s => s.length < n
  | jStrArr xs => xs.length < n
  | _ => false

/-- `s.toLowerCase()`, computed on the character list. -/
def strLower (s : String) : String := String.mk (s.toList.map Char.toLower)

/-- `s.trim()`: strip leading and trailing whitespace, computed on the
character list. -/
def strTrim (s : String) : String :=
  String.mk
    (((s.toList.dropWhile Char.isWhitespace).reverse.dropWhile Char.isWhitespace).reverse)

/-- `v?.trim() || null` (register's `full_name` normalization). -/
def jsTrimOrNull : Option JsonVal → JsonVal
  | some (jStr s) => if (strTrim s).isEmpty then jNull else jStr (strTrim s)
  | _ => jNull

/-- `v || null` (register's `avatar_url` normalization). -/
def jsOrNull (v : Option JsonVal) : JsonVal :=
  if jsFalsy v then jNull else (v.getD jNull)

/-- `username.trim()` / `email.toLowerCase().trim()` on a string value;
other values are passed through. -/
def jsTrim : JsonVal → JsonVal
  | jStr s => jStr (strTrim s)
  | v => v

def jsLowerTrim : JsonVal → JsonVal
  | jStr s => jStr (strTrim (strLower s))
  | v => v

/-- A response object before serialization: JavaScript object fields may
hold `undefined` (`none`). -/
abbrev JsObject : Type := List (String × Option JsonVal)

/-- `JSON.stringify` (as invoked by `res.json`) drops every key whose
value is `undefined`; explicit `null` values are kept. -/
def serializeJson (o : JsObject) : List (String × JsonVal) :=
  o.filterMap (fun kv => kv.2.map (fun v => (kv.1, v)))

/-- Projection of a row onto an explicit column list, as produced by a
`RETURNING`/`SELECT` column list: a column missing from the row is
absent from the result. -/
def selectColumns (r : Row) (cols : List String) : Row :=
  cols.filterMap (fun c => (rowGet r c).map (fun v => (c, v)))

/-- The column list of the register INSERT's RETURNING clause — it does
not include `password_hash`. -/
def registerReturningColumns : List String :=
  ["id", "username", "email", "full_name", "avatar_url", "is_active", "created_at"]

/-- The column list of the public profile SELECT. -/
def publicProfileColumns : List String :=
  ["id", "username", "full_name", "avatar_url", "is_active", "created_at"]

/-- The user object literal built by both the register and the login
responses: each field reads the corresponding property of the row the
preceding query produced, `password_hash` included. -/
def userResponseObject (user : Row) : JsObject :=
  [("id", rowGet user "id"), ("username", rowGet user "username"),
   ("email", rowGet user "email"), ("password_hash", rowGet user "password_hash"),
   ("full_name", rowGet user "full_name"), ("avatar_url", rowGet user "avatar_url"),
   ("is_active", rowGet user "is_active"), ("created_at", rowGet user "created_at")]

/-- POST /api/auth/register: validation (missing fields → 400, password
shorter than 6 → 400, existing username or email → 400), then the
INSERT whose RETURNING projection omits `password_hash`, and the 201
response whose serialized user object is built from that projection. -/
def registerHandler (users : List Row)
    (username email password_hash full_name avatar_url : Option JsonVal)
    (new_id : String) (now : Int) :
    Nat × Option (List (String × JsonVal)) × List Row :=
  if jsFalsy username || jsFalsy email || jsFalsy password_hash then
    (400, none, users)
  else if jsLengthLt (password_hash.getD jNull) 6 then
    (400, none, users)
  else if (users.find? (fun r =>
      rowGet r "username" == username || rowGet r "email" == email)).isSome then
    (400, none, users)
  else
    let newRow : Row :=
      [("id", jStr new_id),
       ("username", jsTrim (username.getD jNull)),
       ("email", jsLowerTrim (email.getD jNull)),
       ("password_hash", password_hash.getD jNull),
       ("full_name", jsTrimOrNull full_name),
       ("avatar_url", jsOrNull avatar_url),
       ("is_active", jBool true),
       ("created_at", jNum now)]
    let returned := selectColumns newRow registerReturningColumns
    (201, some (serializeJson (userResponseObject returned)), users ++ [newRow])

/-- POST /api/auth/login: missing identifier or password → 400; no row
whose username or email equals the lower-cased trimmed identifier →
400 INVALID_CREDENTIALS; stored `password_hash` differing from the
submitted one → 400; otherwise 200 with the user object built from the
full row (`SELECT *`), `password_hash` included. -/
def loginHandler (users : List Row)
    (username email password_hash : Option JsonVal) :
    Nat × Option (List (String × JsonVal)) :=
  let login_identifier := if username.isSome then username else email
  if jsFalsy login_identifier || jsFalsy password_hash then
    (400, none)
  else
    let ident := jsLowerTrim (login_identifier.getD jNull)
    match users.find? (fun r =>
        rowGet r "username" == some ident || rowGet r "email" == some ident) with
    | none => (400, none)
    | some user =>
      if password_hash == rowGet user "password_hash" then
        (200, some (serializeJson (userResponseObject user)))
      else
        (400, none)

/-- GET /api/users/:user_id (public, no token): the SELECT projects the
row onto `publicProfileColumns` (no `password_hash`); a missing or
inactive user yields 404. -/
def publicProfileHandler (users : List Row) (user_id : String) :
    Nat × Option (List (String × JsonVal)) :=
  match users.find? (fun r =>
      rowGet r "id" == some (jStr user_id) &&
      rowGet r "is_active" == some (jBool true)) with
  | none => (404, none)
  | some r => (200, some (selectColumns r publicProfileColumns))

/-! ## Route table -/

/-- One route registration: HTTP method, path, and whether the
`authenticateToken` middleware is installed on it. -/
structure RouteEntry where
  method : String
  path : String
  requiresAuth : Bool
deriving DecidableEq, Repr

/-- Every `app.<method>` registration of the server, in source order.
The final entry is the non-API single-page-app fallback
(`app.get(/^(?!\/api).*/)`). -/
def apiRoutes : List RouteEntry :=
  [⟨"POST", "/api/auth/register", false⟩,
   ⟨"POST", "/api/auth/login", false⟩,
   ⟨"POST", "/api/auth/logout", true⟩,
   ⟨"GET", "/api/users/:user_id", false⟩,
   ⟨"POST", "/api/sites", true⟩,
   ⟨"GET", "/api/sites", true⟩,
   ⟨"GET", "/api/sites/:site_id", false⟩,
   ⟨"PUT", "/api/sites/:site_id", true⟩,
   ⟨"PUT", "/api/sites/:site_id/publish", true⟩,
   ⟨"POST", "/api/sites/:site_id/export", true⟩,
   ⟨"PUT", "/api/sites/:site_id/hero", true⟩,
   ⟨"PUT", "/api/sites/:site_id/about", true⟩,
   ⟨"PUT", "/api/sites/:site_id/seo", true⟩,
   ⟨"PUT", "/api/sites/:site_id/theme", true⟩,
   ⟨"GET", "/api/sites/:site_id/projects", false⟩,
   ⟨"POST", "/api/sites/:site_id/projects", true⟩,
   ⟨"PUT", "/api/sites/:site_id/projects/:project_id", true⟩,
   ⟨"DELETE", "/api/sites/:site_id/projects/:project_id", true⟩,
   ⟨"POST", "/api/sites/:site_id/projects/:project_id/images", true⟩,
   ⟨"POST", "/api/sites/:site_id/assets", true⟩,
   ⟨"PUT", "/api/sites/:site_id/assets/:asset_id", true⟩,
   ⟨"DELETE", "/api/sites/:site_id/assets/:asset_id", true⟩,
   ⟨"POST", "/api/contact/submit", false⟩,
   ⟨"GET", "/api/dashboard/projects", true⟩,
   ⟨"GET", "/api/dashboard/submissions", true⟩,
   ⟨"GET", "/api/dashboard/preview", false⟩,
   ⟨"GET", "/api/dashboard/export", true⟩,
   ⟨"GET", "/api/help/docs", false⟩,
   ⟨"GET", "/api/health", false⟩,
   ⟨"GET", "<spa-fallback>", false⟩]

/-- The exception list named by the specification: public profile
fetch, registration, login, contact submission, help docs. -/
def specPublicRoutes : List (String × String) :=
  [("GET", "/api/users/:user_id"),
   ("POST", "/api/auth/register"),
   ("POST", "/api/auth/login"),
   ("POST", "/api/contact/submit"),
   ("GET", "/api/help/docs")]

/-- The routes actually registered without `authenticateToken`: the
specification's five, plus single-site fetch, a site's project list,
the dashboard preview stub, the health check, and the SPA fallback. -/
def actualPublicRoutes : List (String × String) :=
  specPublicRoutes ++
  [("GET", "/api/sites/:site_id"),
   ("GET", "/api/sites/:site_id/projects"),
   ("GET", "/api/dashboard/preview"),
   ("GET", "/api/health"),
   ("GET", "<spa-fallback>")]

/-! ## Projects: creation and listing -/

/-- Integer reading of a column (order and timestamp columns). -/
def rowInt (r : Row) (k : String) : Int :=
  match rowGet r k with
  | some (jNum n) => n
  | _ => 0

/-- The comparator of `ORDER BY order_index ASC, created_at DESC`. -/
def projectOrderLe (r1 r2 : Row) : Bool :=
  rowInt r1 "order_index" < rowInt r2 "order_index" ||
  (rowInt r1 "order_index" == rowInt r2 "order_index" &&
   rowInt r2 "created_at" ≤ rowInt r1 "created_at")

/-- Insertion into a list sorted by `le`. -/
def insertSorted (le : Row → Row → Bool) (x : Row) : List Row → List Row
  | [] => [x]
  | y :: ys => if le x y then x :: y :: ys else y :: insertSorted le x ys

/-- Sorting of a result set by a comparator. -/
def sortRows (le : Row → Row → Bool) : List Row → List Row
  | [] => []
  | x :: xs => insertSorted le x (sortRows le xs)

/-- GET /api/sites/:site_id/projects (public):
`SELECT * FROM portfolio_projects WHERE site_id = $1
ORDER BY order_index ASC, created_at DESC`. -/
def listProjectsHandler (projectsDb : List Row) (site_id : String) :
    Nat × List Row :=
  (200, sortRows projectOrderLe
    (projectsDb.filter (fun r => rowGet r "site_id" == some (jStr site_id))))

/-- POST /api/sites/:site_id/projects (after `authenticateToken`):
destructuring with defaults (`tags = []`, `images = []`,
`order_index = 0`), required-field validation before the ownership
gate, then the fixed-column INSERT with a fresh `project_id`
(`created_at`/`updated_at` filled by the column defaults). -/
def createProjectHandler (sitesDb projectsDb : List Row)
    (principal_id site_id : String)
    (title description date : Option JsonVal)
    (tags : Option (List String)) (demo_url code_url : Option JsonVal)
    (images : Option (List String)) (order_index : Option Int)
    (new_project_id : String) (now : Int) :
    HandlerResult × List Row × List DbOp :=
  if jsFalsy title || jsFalsy description || jsFalsy date then
    (.err 400 "MISSING_REQUIRED_FIELDS", projectsDb, [])
  else
    match sitesDb.find? (fun r => rowGet r "site_id" == some (jStr site_id)) with
    | none => (.err 404 "SITE_NOT_FOUND", projectsDb, [.lookup "portfolio_sites" site_id])
    | some siteRow =>
      if rowGet siteRow "user_id" == some (jStr principal_id) then
        let newRow : Row :=
          [("project_id", jStr new_project_id), ("site_id", jStr site_id),
           ("title", title.getD jNull), ("description", description.getD jNull),
           ("date", date.getD jNull), ("tags", jStrArr (tags.getD [])),
           ("demo_url", demo_url.getD jNull), ("code_url", code_url.getD jNull),
           ("images", jStrArr (images.getD [])),
           ("order_index", jNum (order_index.getD 0)),
           ("created_at", jNum now), ("updated_at", jNum now)]
        (.ok 201 newRow, projectsDb ++ [newRow],
         [.lookup "portfolio_sites" site_id, .insert "portfolio_projects" new_project_id])
      else
        (.err 403 "ACCESS_DENIED", projectsDb, [.lookup "portfolio_sites" site_id])

/-! ## Static export stub -/

/-- The one document `generateStaticSiteExport` writes into the
archive.  Only the generation instant is interpolated; no site or
project data enters the document. -/
def mockHtml (nowIso : String) : String :=
  "\n<!DOCTYPE html>\n<html lang=\"en\">\n<head>\n    <meta charset=\"UTF-8\">\n    <meta name=\"viewport\" content=\"width=device-width, initial-scale=1.0\">\n    <title>Portfolio Export</title>\n    <style>\n        body \x7b font-family: Arial, sans-serif; margin: 0; padding: 20px; \x7d\n        .hero \x7b background: #f4f4f4; padding: 60px 20px; text-align: center; \x7d\n        .projects \x7b padding: 40px 20px; \x7d\n        .project \x7b margin-bottom: 30px; padding: 20px; border: 1px solid #ddd; \x7d\n    </style>\n</head>\n<body>\n    <div class=\"hero\">\n        <h1>Portfolio Site Export</h1>\n        <p>Generated on " ++ nowIso ++ "</p>\n    </div>\n    <div class=\"projects\">\n        <h2>Projects</h2>\n        <div class=\"project\">\n            <h3>Sample Project</h3>\n            <p>This is a mock export. In production, this would contain actual portfolio data.</p>\n        </div>\n    </div>\n</body>\n</html>"

/-- `portfolio-slash-site_id-slash-Date.now().zip` — the archive file name. -/
def exportFilename (site_id : String) (nowMs : Int) : String :=
  "portfolio-" ++ site_id ++ "-" ++ toString nowMs ++ ".zip"

/-- `generateStaticSiteExport`: the archive contents (entry name to
file content) and the returned storage-relative URL. -/
def generateStaticSiteExport (site_id : String) (nowIso : String) (nowMs : Int) :
    List (String × String) × String :=
  ([("index.html", mockHtml nowIso)], "/storage/" ++ exportFilename site_id nowMs)

/-- POST /api/sites/:site_id/export (after `authenticateToken`): the
ownership gate, then the export stub, then
`UPDATE portfolio_sites SET export_zip_url = $1,
updated_at = CURRENT_TIMESTAMP WHERE site_id = $2`; the response body
carries the URL twice (`export_zip_url` and `export_path`). -/
def exportSiteHandler (db : List Row) (principal_id site_id : String)
    (nowIso : String) (nowMs : Int) (now : Int) :
    HandlerResult × List Row × List (String × String) :=
  match db.find? (fun r => rowGet r "site_id" == some (jStr site_id)) with
  | none => (.err 404 "SITE_NOT_FOUND", db, [])
  | some siteRow =>
    if rowGet siteRow "user_id" == some (jStr principal_id) then
      let result := generateStaticSiteExport site_id nowIso nowMs
      let clause := [("export_zip_url", jStr result.2), ("updated_at", jNum now)]
      (.ok 200 [("export_zip_url", jStr result.2), ("export_path", jStr result.2)],
       db.map (fun r =>
         if rowGet r "site_id" == some (jStr site_id) then applySet r clause else r),
       result.1)
    else
      (.err 403 "ACCESS_DENIED", db, [])

theorem rowGet_rowSet_ne (r : Row) (k k' : String) (v : JsonVal)
    (h : k' ≠ k) : rowGet (rowSet r k v) k' = rowGet r k' := by
  induction r with
  | nil => rfl
  | cons kv rest ih =>
    by_cases hk : kv.1 = k
    · have h2 : ¬ kv.1 = k' := fun he => h (by rw [← he, hk])
      simp [rowSet, rowGet, hk, h2, Ne.symm h, ih]
    · by_cases hk2 : kv.1 = k'
      · simp [rowSet, rowGet, hk, hk2, h]
      · simp [rowSet, rowGet, hk, hk2, ih]

theorem rowGet_rowSet_eq (r : Row) (k : String) (v : JsonVal)
    (h : k ∈ r.map Prod.fst) : rowGet (rowSet r k v) k = some v := by
  induction r with
  | nil => simp at h
  | cons kv rest ih =>
    simp only [List.map_cons, List.mem_cons] at h
    by_cases hk : kv.1 = k
    · simp [rowSet, rowGet, hk]
    · rcases h with h | h
      · exact absurd h.symm hk
      · simp [rowSet, rowGet, hk, ih h]

theorem rowGet_applySet_not_mem (r : Row) (clause : List (String × JsonVal))
    (k : String) (h : k ∉ clause.map Prod.fst) :
    rowGet (applySet r clause) k = rowGet r k := by
  induction clause generalizing r with
  | nil => rfl
  | cons kv rest ih =>
    simp only [List.map_cons, List.mem_cons, not_or] at h
    simp only [applySet, List.foldl]
    calc rowGet (rest.foldl (fun acc kv => rowSet acc kv.1 kv.2) (rowSet r kv.1 kv.2)) k
        = rowGet (rowSet r kv.1 kv.2) k := ih (rowSet r kv.1 kv.2) h.2
      _ = rowGet r k := rowGet_rowSet_ne r kv.1 k kv.2 h.1

/-! ### Characterization of the dynamic UPDATE loop -/

theorem foldl_updateStep (pk : List String) (payload : List (String × Option JsonVal))
    (acc : UpdateAccum) :
    payload.foldl (updateStep pk) acc =
      ⟨acc.update_fields ++ specFields (keptEntries pk payload) acc.value_index,
       acc.values ++ (keptEntries pk payload).map Prod.snd,
       acc.value_index + (keptEntries pk payload).length⟩ := by
  induction payload generalizing acc with
  | nil => simp [keptEntries, specFields]
  | cons kv rest ih =>
    match hv : kv.2 with
    | none =>
      have hstep : updateStep pk acc kv = acc := by
        simp [updateStep, hv]
      have hkept : keptEntries pk (kv :: rest) = keptEntries pk rest := by
        simp [keptEntries, List.filterMap_cons, hv]
      simp only [List.foldl_cons, hstep, hkept]
      exact ih acc
    | some v =>
      by_cases hmem : kv.1 ∈ pk
      · have hstep : updateStep pk acc kv = acc := by
          simp [updateStep, hv, hmem]
        have hkept : keptEntries pk (kv :: rest) = keptEntries pk rest := by
          simp [keptEntries, List.filterMap_cons, hv, hmem]
        simp only [List.foldl_cons, hstep, hkept]
        exact ih acc
      · have hstep : updateStep pk acc kv =
            ⟨acc.update_fields ++ [kv.1 ++ " = $" ++ toString acc.value_index],
             acc.values ++ [v], acc.value_index + 1⟩ := by
          simp [updateStep, hv, hmem]
        have hkept : keptEntries pk (kv :: rest) = (kv.1, v) :: keptEntries pk rest := by
          simp [keptEntries, List.filterMap_cons, hv, hmem]
        simp only [List.foldl_cons, hstep, hkept]
        rw [ih]
        simp only [specFields, List.map_cons, List.length_cons, UpdateAccum.mk.injEq]
        exact ⟨by simp [List.append_assoc], by simp [List.append_assoc], by omega⟩

theorem buildUpdateFields_eq (pk : List String)
    (payload : List (String × Option JsonVal)) :
    buildUpdateFields pk payload =
      ⟨specFields (keptEntries pk payload) 1,
       (keptEntries pk payload).map Prod.snd,
       1 + (keptEntries pk payload).length⟩ := by
  simpa using foldl_updateStep pk payload ⟨[], [], 1⟩

theorem specFields_length (kept : List (String × JsonVal)) (i : Nat) :
    (specFields kept i).length = kept.length := by
  induction kept generalizing i with
  | nil => rfl
  | cons kv rest ih => simp [specFields, ih]

theorem specFields_getElem (kept : List (String × JsonVal)) (i j : Nat)
    (h : j < kept.length) :
    (specFields kept i)[j]? =
      some ((kept.get ⟨j, h⟩).1 ++ " = $" ++ toString (i + j)) := by
  induction kept generalizing i j with
  | nil => simp at h
  | cons kv rest ih =>
    cases j with
    | zero => simp [specFields]
    | succ j' =>
      have h' : j' < rest.length := by simpa using h
      have harith : i + (j' + 1) = (i + 1) + j' := by omega
      simp only [specFields, List.getElem?_cons_succ, List.get_cons_succ, harith]
      exact ih (i + 1) j' h'

theorem specFields_eq_nil_iff (kept : List (String × JsonVal)) (i : Nat) :
    specFields kept i = [] ↔ kept = [] := by
  cases kept <;> simp [specFields]

theorem keptEntries_not_mem_protected (pk : List String)
    (payload : List (String × Option JsonVal)) (k : String) (hk : k ∈ pk) :
    k ∉ (keptEntries pk payload).map Prod.fst := by
  induction payload with
  | nil => simp [keptEntries]
  | cons kv rest ih =>
    match hv : kv.2 with
    | none =>
      simpa [keptEntries, List.filterMap_cons, hv] using ih
    | some v =>
      by_cases hmem : kv.1 ∈ pk
      · simpa [keptEntries, List.filterMap_cons, hv, hmem] using ih
      · simp only [keptEntries, List.filterMap_cons, hv, if_neg hmem, List.map_cons,
          List.mem_cons, not_or] at ih ⊢
        exact ⟨fun he => hmem (he ▸ hk), ih⟩

/-! ### Row and result-set helper lemmas -/

theorem map_fst_rowSet (r : Row) (k : String) (v : JsonVal) :
    (rowSet r k v).map Prod.fst = r.map Prod.fst := by
  induction r with
  | nil => rfl
  | cons kv rest ih =>
    by_cases hk : kv.1 = k <;> simp [rowSet, hk, ih]

theorem map_fst_applySet (r : Row) (clause : List (String × JsonVal)) :
    (applySet r clause).map Prod.fst = r.map Prod.fst := by
  induction clause generalizing r with
  | nil => rfl
  | cons kv rest ih =>
    simp only [applySet, List.foldl_cons]
    calc ((rest.foldl (fun acc kv => rowSet acc kv.1 kv.2) (rowSet r kv.1 kv.2)).map Prod.fst)
        = (rowSet r kv.1 kv.2).map Prod.fst := ih (rowSet r kv.1 kv.2)
      _ = r.map Prod.fst := map_fst_rowSet r kv.1 kv.2

theorem find?_map_of_pred_invariant {α : Type} (l : List α) (f : α → α)
    (p : α → Bool) (h : ∀ a, p (f a) = p a) :
    (l.map f).find? p = (l.find? p).map f := by
  induction l with
  | nil => rfl
  | cons a rest ih =>
    by_cases hp : p a
    · simp [List.find?_cons, h, hp]
    · simp only [List.map_cons, List.find?_cons, h a, hp]
      simpa [hp] using ih

theorem filter_append_of_no_match (l : List Row) (x : Row) (p : Row → Bool)
    (h : ∀ r ∈ l, p r = false) (hx : p x = true) :
    (l ++ [x]).filter p = [x] := by
  induction l with
  | nil => simp [List.filter, hx]
  | cons a rest ih =>
    have ha := h a (List.mem_cons_self a rest)
    have hrest : ∀ r ∈ rest, p r = false := fun r hr => h r (List.mem_cons_of_mem a hr)
    simp [List.filter, ha, ih hrest]

theorem protected_not_in_clause (pk : List String)
    (payload : List (String × Option JsonVal)) (k : String) (now : Int)
    (hk : k ∈ pk) (hne : k ≠ "updated_at") :
    k ∉ (keptEntries pk payload ++ [("updated_at", jNum now)]).map Prod.fst := by
  simp only [List.map_append, List.mem_append, List.map_cons, List.map_nil,
    List.mem_singleton, not_or]
  exact ⟨keptEntries_not_mem_protected pk payload k hk, hne⟩

/-! ## Claim theorems -/

/-- C1: For every partial-update request to the site or project update
endpoint, the handler builds the UPDATE statement by iterating the
payload in encounter order, skipping every protected key and every key
whose value is undefined (absent), while an explicit null value is kept
and assigned; each kept key contributes one positional placeholder
matched 1:1 to the value list (the j-th kept key becomes `key = $(1+j)`
and the j-th parameter is its value); a trailing `updated_at`
assignment is always appended to every issued UPDATE; and if no payload
key survives the filter, the handler returns a 400 no-op error without
issuing any UPDATE. -/
theorem dynamicUpdate_builds_positional_set_clause :
    (∀ (pk : List String) (payload : List (String × Option JsonVal)),
      (buildUpdateFields pk payload).update_fields =
        specFields (keptEntries pk payload) 1 ∧
      (buildUpdateFields pk payload).values =
        (keptEntries pk payload).map Prod.snd ∧
      (∀ j (h : j < (keptEntries pk payload).length),
        (buildUpdateFields pk payload).update_fields[j]? =
          some (((keptEntries pk payload).get ⟨j, h⟩).1 ++ " = $" ++ toString (1 + j)) ∧
        (buildUpdateFields pk payload).values[j]? =
          some (((keptEntries pk payload).get ⟨j, h⟩).2))) ∧
    (∀ (db : List Row) (principal sid : String)
       (payload : List (String × Option JsonVal)) (now : Int) (siteRow : Row),
      db.find? (fun r => rowGet r "site_id" == some (jStr sid)) = some siteRow →
      rowGet siteRow "user_id" = some (jStr principal) →
      (keptEntries siteProtectedKeys payload = [] →
        putSiteHandler db principal sid payload now =
          (.err 400 "NO_UPDATE_FIELDS", db, [.lookup "portfolio_sites" sid])) ∧
      (keptEntries siteProtectedKeys payload ≠ [] →
        putSiteHandler db principal sid payload now =
          (.ok 200 (applySet siteRow
              (keptEntries siteProtectedKeys payload ++ [("updated_at", jNum now)])),
           db.map (fun r =>
             if rowGet r "site_id" == some (jStr sid) then
               applySet r (keptEntries siteProtectedKeys payload ++ [("updated_at", jNum now)])
             else r),
           [.lookup "portfolio_sites" sid, .update "portfolio_sites" sid]))) ∧
    (∀ (sitesDb projectsDb : List Row) (principal sid pid : String)
       (payload : List (String × Option JsonVal)) (now : Int) (projectRow siteRow : Row),
      projectsDb.find? (fun r =>
        rowGet r "project_id" == some (jStr pid) &&
        rowGet r "site_id" == some (jStr sid)) = some projectRow →
      sitesDb.find? (fun s => rowGet s "site_id" == some (jStr sid)) = some siteRow →
      rowGet siteRow "user_id" = some (jStr principal) →
      (keptEntries projectProtectedKeys payload = [] →
        putProjectHandler sitesDb projectsDb principal sid pid payload now =
          (.err 400 "NO_UPDATE_FIELDS", projectsDb, [.lookup "portfolio_projects" pid])) ∧
      (keptEntries projectProtectedKeys payload ≠ [] →
        putProjectHandler sitesDb projectsDb principal sid pid payload now =
          (.ok 200 (applySet projectRow
              (keptEntries projectProtectedKeys payload ++ [("updated_at", jNum now)])),
           projectsDb.map (fun r =>
             if rowGet r "project_id" == some (jStr pid) then
               applySet r (keptEntries projectProtectedKeys payload ++ [("updated_at", jNum now)])
             else r),
           [.lookup "portfolio_projects" pid, .update "portfolio_projects" pid]))) := by
  refine ⟨?_, ?_, ?_⟩
  · intro pk payload
    rw [buildUpdateFields_eq]
    refine ⟨rfl, rfl, fun j h => ⟨specFields_getElem _ 1 j h, ?_⟩⟩
    simp [List.getElem?_map, List.getElem?_eq_getElem h]
  · intro db principal sid payload now siteRow hfind hown
    constructor
    · intro hk
      simp [putSiteHandler, hfind, hown, buildUpdateFields_eq, hk, specFields]
    · intro hk
      simp [putSiteHandler, hfind, hown, buildUpdateFields_eq,
        List.isEmpty_iff, specFields_eq_nil_iff, hk]
  · intro sitesDb projectsDb principal sid pid payload now projectRow siteRow
      hpfind hsfind hown
    constructor
    · intro hk
      simp [putProjectHandler, hpfind, hsfind, hown, buildUpdateFields_eq, hk, specFields]
    · intro hk
      simp [putProjectHandler, hpfind, hsfind, hown, buildUpdateFields_eq,
        List.isEmpty_iff, specFields_eq_nil_iff, hk]

/-- Witness for C1: a concrete site row updated with a payload holding
one real change, one undefined entry (skipped), one explicit null
(kept) and an attempt on the protected `site_id` (skipped). -/
theorem dynamicUpdate_builds_positional_set_clause_witness :
    putSiteHandler
      [[("site_id", jStr "s1"), ("user_id", jStr "u1"),
        ("site_title", jStr "Old"), ("tagline", jStr "t"), ("updated_at", jNum 0)]]
      "u1" "s1"
      [("site_title", some (jStr "New")), ("hero_image_url", none),
       ("tagline", some jNull), ("site_id", some (jStr "evil"))] 7 =
      (.ok 200 [("site_id", jStr "s1"), ("user_id", jStr "u1"),
        ("site_title", jStr "New"), ("tagline", jNull), ("updated_at", jNum 7)],
       [[("site_id", jStr "s1"), ("user_id", jStr "u1"),
         ("site_title", jStr "New"), ("tagline", jNull), ("updated_at", jNum 7)]],
       [.lookup "portfolio_sites" "s1", .update "portfolio_sites" "s1"]) := by
  rw [(dynamicUpdate_builds_positional_set_clause.2.1
    [[("site_id", jStr "s1"), ("user_id", jStr "u1"),
      ("site_title", jStr "Old"), ("tagline", jStr "t"), ("updated_at", jNum 0)]]
    "u1" "s1"
    [("site_title", some (jStr "New")), ("hero_image_url", none),
     ("tagline", some jNull), ("site_id", some (jStr "evil"))] 7
    [("site_id", jStr "s1"), ("user_id", jStr "u1"),
     ("site_title", jStr "Old"), ("tagline", jStr "t"), ("updated_at", jNum 0)]
    (by decide) (by decide)).2 (by decide)]
  decide

/-- C2: For every partial-update payload sent to the site or project
update endpoint, the protected key (id) fields of the target row are
never altered, regardless of what keys and values the payload contains:
the protected columns never appear among the SET-clause assignments the
builder emits (trailing `updated_at` included), after the handler runs
every row of the table carries its protected columns unchanged, and the
row returned by a successful update (`RETURNING *`) carries the
protected columns of the row the ownership lookup found. -/
theorem protected_id_fields_never_altered :
    (∀ (payload : List (String × Option JsonVal)) (now : Int) (k : String),
      k ∈ siteProtectedKeys →
      k ∉ (keptEntries siteProtectedKeys payload ++
        [("updated_at", jNum now)]).map Prod.fst) ∧
    (∀ (payload : List (String × Option JsonVal)) (now : Int) (k : String),
      k ∈ projectProtectedKeys →
      k ∉ (keptEntries projectProtectedKeys payload ++
        [("updated_at", jNum now)]).map Prod.fst) ∧
    (∀ (db : List Row) (principal sid : String)
       (payload : List (String × Option JsonVal)) (now : Int) (k : String),
      k ∈ siteProtectedKeys →
      ((putSiteHandler db principal sid payload now).2.1).map (fun r => rowGet r k) =
        db.map (fun r => rowGet r k)) ∧
    (∀ (sitesDb projectsDb : List Row) (principal sid pid : String)
       (payload : List (String × Option JsonVal)) (now : Int) (k : String),
      k ∈ projectProtectedKeys →
      ((putProjectHandler sitesDb projectsDb principal sid pid payload now).2.1).map
          (fun r => rowGet r k) =
        projectsDb.map (fun r => rowGet r k)) ∧
    (∀ (db : List Row) (principal sid : String)
       (payload : List (String × Option JsonVal)) (now : Int)
       (siteRow : Row) (k : String) (status : Nat) (body : Row),
      k ∈ siteProtectedKeys →
      db.find? (fun r => rowGet r "site_id" == some (jStr sid)) = some siteRow →
      (putSiteHandler db principal sid payload now).1 = .ok status body →
      rowGet body k = rowGet siteRow k) ∧
    (∀ (sitesDb projectsDb : List Row) (principal sid pid : String)
       (payload : List (String × Option JsonVal)) (now : Int)
       (projectRow : Row) (k : String) (status : Nat) (body : Row),
      k ∈ projectProtectedKeys →
      projectsDb.find? (fun r =>
        rowGet r "project_id" == some (jStr pid) &&
        rowGet r "site_id" == some (jStr sid)) = some projectRow →
      (putProjectHandler sitesDb projectsDb principal sid pid payload now).1 =
        .ok status body →
      rowGet body k = rowGet projectRow k) := by
  have hneSite : ∀ k : String, k ∈ siteProtectedKeys → k ≠ "updated_at" := by
    intro k hk
    simp only [siteProtectedKeys, List.mem_singleton] at hk
    simp [hk]
  have hneProject : ∀ k : String, k ∈ projectProtectedKeys → k ≠ "updated_at" := by
    intro k hk
    simp only [projectProtectedKeys, List.mem_cons, List.mem_singleton,
      List.not_mem_nil, or_false] at hk
    rcases hk with h | h | h <;> simp [h]
  refine ⟨?_, ?_, ?_, ?_, ?_, ?_⟩
  · intro payload now k hk
    exact protected_not_in_clause siteProtectedKeys payload k now hk (hneSite k hk)
  · intro payload now k hk
    exact protected_not_in_clause projectProtectedKeys payload k now hk (hneProject k hk)
  · intro db principal sid payload now k hk
    have hne := hneSite k hk
    unfold putSiteHandler
    cases hfind : db.find? (fun r => rowGet r "site_id" == some (jStr sid)) with
    | none => rfl
    | some siteRow =>
      by_cases hown : (rowGet siteRow "user_id" == some (jStr principal)) = true
      · simp only [hown, if_true]
        by_cases hempty :
            (buildUpdateFields siteProtectedKeys payload).update_fields.isEmpty = true
        · simp [hempty]
        · simp only [hempty, if_false, Bool.false_eq_true, List.map_map]
          refine List.map_congr_left (fun r _ => ?_)
          by_cases hr : (rowGet r "site_id" == some (jStr sid)) = true
          · simp only [Function.comp_apply, hr, if_true]
            exact rowGet_applySet_not_mem r _ k
              (protected_not_in_clause siteProtectedKeys payload k now hk hne)
          · simp only [Function.comp_apply]
            rw [if_neg (by simpa using hr)]
      · simp [hown]
  · intro sitesDb projectsDb principal sid pid payload now k hk
    have hne := hneProject k hk
    unfold putProjectHandler
    cases hpfind : projectsDb.find? (fun r =>
        rowGet r "project_id" == some (jStr pid) &&
        rowGet r "site_id" == some (jStr sid)) with
    | none => rfl
    | some projectRow =>
      cases hsfind : sitesDb.find? (fun s => rowGet s "site_id" == some (jStr sid)) with
      | none => rfl
      | some siteRow =>
        by_cases hown : (rowGet siteRow "user_id" == some (jStr principal)) = true
        · simp only [hown, if_true]
          by_cases hempty :
              (buildUpdateFields projectProtectedKeys payload).update_fields.isEmpty = true
          · simp [hempty]
          · simp only [hempty, if_false, Bool.false_eq_true, List.map_map]
            refine List.map_congr_left (fun r _ => ?_)
            by_cases hr : (rowGet r "project_id" == some (jStr pid)) = true
            · simp only [Function.comp_apply, hr, if_true]
              exact rowGet_applySet_not_mem r _ k
                (protected_not_in_clause projectProtectedKeys payload k now hk hne)
            · simp only [Function.comp_apply]
              rw [if_neg (by simpa using hr)]
        · simp [hown]
  · intro db principal sid payload now siteRow k status body hk hfind hok
    have hne := hneSite k hk
    simp only [putSiteHandler, hfind] at hok
    by_cases hown : (rowGet siteRow "user_id" == some (jStr principal)) = true
    · simp only [hown, if_true] at hok
      by_cases hempty :
          (buildUpdateFields siteProtectedKeys payload).update_fields.isEmpty = true
      · simp [hempty] at hok
      · simp only [hempty, if_false, Bool.false_eq_true, HandlerResult.ok.injEq] at hok
        rw [← hok.2]
        exact rowGet_applySet_not_mem siteRow _ k
          (protected_not_in_clause siteProtectedKeys payload k now hk hne)
    · simp [hown] at hok
  · intro sitesDb projectsDb principal sid pid payload now projectRow k status body
      hk hpfind hok
    have hne := hneProject k hk
    simp only [putProjectHandler, hpfind] at hok
    cases hsfind : sitesDb.find? (fun s => rowGet s "site_id" == some (jStr sid)) with
    | none => rw [hsfind] at hok; simp at hok
    | some siteRow =>
      rw [hsfind] at hok
      by_cases hown : (rowGet siteRow "user_id" == some (jStr principal)) = true
      · simp only [hown, if_true] at hok
        by_cases hempty :
            (buildUpdateFields projectProtectedKeys payload).update_fields.isEmpty = true
        · simp [hempty] at hok
        · simp only [hempty, if_false, Bool.false_eq_true, HandlerResult.ok.injEq] at hok
          rw [← hok.2]
          exact rowGet_applySet_not_mem projectRow _ k
            (protected_not_in_clause projectProtectedKeys payload k now hk hne)
      · simp [hown] at hok

/-- Witness for C2: payloads that try to overwrite `site_id` and
`project_id` never place those columns in the SET clause, leave the id
columns of the stored rows untouched, and the returned updated rows
carry the ids of the rows the lookups found. -/
theorem protected_id_fields_never_altered_witness :
    "site_id" ∉ (keptEntries siteProtectedKeys
        [("site_id", some (jStr "evil")), ("site_title", some (jStr "x"))] ++
        [("updated_at", jNum 3)]).map Prod.fst ∧
    "project_id" ∉ (keptEntries projectProtectedKeys
        [("project_id", some (jStr "evil")), ("title", some (jStr "x"))] ++
        [("updated_at", jNum 3)]).map Prod.fst ∧
    ((putSiteHandler [[("site_id", jStr "s1"), ("user_id", jStr "u1")]]
        "u1" "s1" [("site_id", some (jStr "evil")), ("site_title", some (jStr "x"))] 3).2.1).map
      (fun r => rowGet r "site_id") =
      [[("site_id", jStr "s1"), ("user_id", jStr "u1")]].map (fun r => rowGet r "site_id") ∧
    ((putProjectHandler [[("site_id", jStr "s1"), ("user_id", jStr "u1")]]
        [[("project_id", jStr "p1"), ("site_id", jStr "s1")]]
        "u1" "s1" "p1" [("project_id", some (jStr "evil")), ("title", some (jStr "x"))] 3).2.1).map
      (fun r => rowGet r "project_id") =
      [[("project_id", jStr "p1"), ("site_id", jStr "s1")]].map (fun r => rowGet r "project_id") ∧
    rowGet [("site_id", jStr "s1"), ("user_id", jStr "u1"),
        ("site_title", jStr "x"), ("updated_at", jNum 3)] "site_id" =
      rowGet [("site_id", jStr "s1"), ("user_id", jStr "u1"),
        ("site_title", jStr "Old"), ("updated_at", jNum 0)] "site_id" ∧
    rowGet [("project_id", jStr "p1"), ("site_id", jStr "s1"),
        ("title", jStr "x"), ("updated_at", jNum 3)] "project_id" =
      rowGet [("project_id", jStr "p1"), ("site_id", jStr "s1"),
        ("title", jStr "Old"), ("updated_at", jNum 0)] "project_id" :=
  ⟨protected_id_fields_never_altered.1
      [("site_id", some (jStr "evil")), ("site_title", some (jStr "x"))] 3
      "site_id" (by decide),
   protected_id_fields_never_altered.2.1
      [("project_id", some (jStr "evil")), ("title", some (jStr "x"))] 3
      "project_id" (by decide),
   protected_id_fields_never_altered.2.2.1
      [[("site_id", jStr "s1"), ("user_id", jStr "u1")]]
      "u1" "s1" [("site_id", some (jStr "evil")), ("site_title", some (jStr "x"))] 3
      "site_id" (by decide),
   protected_id_fields_never_altered.2.2.2.1
      [[("site_id", jStr "s1"), ("user_id", jStr "u1")]]
      [[("project_id", jStr "p1"), ("site_id", jStr "s1")]]
      "u1" "s1" "p1" [("project_id", some (jStr "evil")), ("title", some (jStr "x"))] 3
      "project_id" (by decide),
   protected_id_fields_never_altered.2.2.2.2.1
      [[("site_id", jStr "s1"), ("user_id", jStr "u1"),
        ("site_title", jStr "Old"), ("updated_at", jNum 0)]]
      "u1" "s1" [("site_id", some (jStr "evil")), ("site_title", some (jStr "x"))] 3
      [("site_id", jStr "s1"), ("user_id", jStr "u1"),
       ("site_title", jStr "Old"), ("updated_at", jNum 0)]
      "site_id" 200
      [("site_id", jStr "s1"), ("user_id", jStr "u1"),
       ("site_title", jStr "x"), ("updated_at", jNum 3)]
      (by decide) (by decide) (by decide),
   protected_id_fields_never_altered.2.2.2.2.2
      [[("site_id", jStr "s1"), ("user_id", jStr "u1")]]
      [[("project_id", jStr "p1"), ("site_id", jStr "s1"),
        ("title", jStr "Old"), ("updated_at", jNum 0)]]
      "u1" "s1" "p1" [("project_id", some (jStr "evil")), ("title", some (jStr "x"))] 3
      [("project_id", jStr "p1"), ("site_id", jStr "s1"),
       ("title", jStr "Old"), ("updated_at", jNum 0)]
      "project_id" 200
      [("project_id", jStr "p1"), ("site_id", jStr "s1"),
       ("title", jStr "x"), ("updated_at", jNum 3)]
      (by decide) (by decide) (by decide)⟩

/-- C3: For every mutation request through the ownership gate: if no
row matches the target id the result is 404, decided before any owner
comparison is attempted (the outcome does not depend on the principal);
if the row exists but its resolved owner id differs from the
authenticated principal's id the result is 403 and the database is left
unchanged; and the gate performs exactly one lookup query, issued
before the mutation if any, and never rolls back after it (every trace
is either the single lookup or the lookup followed by the one UPDATE). -/
theorem ownership_gate_contract :
    (∀ (db : List Row) (principal sid : String)
       (payload : List (String × Option JsonVal)) (now : Int),
      db.find? (fun r => rowGet r "site_id" == some (jStr sid)) = none →
      putSiteHandler db principal sid payload now =
        (.err 404 "SITE_NOT_FOUND", db, [.lookup "portfolio_sites" sid])) ∧
    (∀ (db : List Row) (principal sid : String)
       (payload : List (String × Option JsonVal)) (now : Int) (siteRow : Row),
      db.find? (fun r => rowGet r "site_id" == some (jStr sid)) = some siteRow →
      rowGet siteRow "user_id" ≠ some (jStr principal) →
      putSiteHandler db principal sid payload now =
        (.err 403 "ACCESS_DENIED", db, [.lookup "portfolio_sites" sid])) ∧
    (∀ (db : List Row) (principal sid : String)
       (payload : List (String × Option JsonVal)) (now : Int),
      (putSiteHandler db principal sid payload now).2.2 =
        [.lookup "portfolio_sites" sid] ∨
      (putSiteHandler db principal sid payload now).2.2 =
        [.lookup "portfolio_sites" sid, .update "portfolio_sites" sid]) := by
  refine ⟨?_, ?_, ?_⟩
  · intro db principal sid payload now h
    simp [putSiteHandler, h]
  · intro db principal sid payload now siteRow hfind hne
    have hbeq : (rowGet siteRow "user_id" == some (jStr principal)) = false := by
      simpa using hne
    simp [putSiteHandler, hfind, hbeq]
  · intro db principal sid payload now
    unfold putSiteHandler
    cases hfind : db.find? (fun r => rowGet r "site_id" == some (jStr sid)) with
    | none => left; rfl
    | some siteRow =>
      by_cases hown : (rowGet siteRow "user_id" == some (jStr principal)) = true
      · simp only [hown, if_true]
        by_cases hempty :
            (buildUpdateFields siteProtectedKeys payload).update_fields.isEmpty = true
        · left; simp [hempty]
        · right; simp [hempty]
      · left; simp [hown]

/-- Witness for C3: the 404 branch on an empty table, the 403 branch
for a foreign principal (database unchanged), and the trace shape at a
concrete successful update. -/
theorem ownership_gate_contract_witness :
    putSiteHandler [] "u1" "s1" [("site_title", some (jStr "x"))] 2 =
      (.err 404 "SITE_NOT_FOUND", [], [.lookup "portfolio_sites" "s1"]) ∧
    putSiteHandler [[("site_id", jStr "s1"), ("user_id", jStr "owner")]]
        "intruder" "s1" [("site_title", some (jStr "x"))] 2 =
      (.err 403 "ACCESS_DENIED",
       [[("site_id", jStr "s1"), ("user_id", jStr "owner")]],
       [.lookup "portfolio_sites" "s1"]) ∧
    ((putSiteHandler [[("site_id", jStr "s1"), ("user_id", jStr "u1")]]
        "u1" "s1" [("site_title", some (jStr "x"))] 2).2.2 =
        [.lookup "portfolio_sites" "s1"] ∨
     (putSiteHandler [[("site_id", jStr "s1"), ("user_id", jStr "u1")]]
        "u1" "s1" [("site_title", some (jStr "x"))] 2).2.2 =
        [.lookup "portfolio_sites" "s1", .update "portfolio_sites" "s1"]) :=
  ⟨ownership_gate_contract.1 [] "u1" "s1" [("site_title", some (jStr "x"))] 2 (by decide),
   ownership_gate_contract.2.1 [[("site_id", jStr "s1"), ("user_id", jStr "owner")]]
     "intruder" "s1" [("site_title", some (jStr "x"))] 2
     [("site_id", jStr "s1"), ("user_id", jStr "owner")] (by decide) (by decide),
   ownership_gate_contract.2.2 [[("site_id", jStr "s1"), ("user_id", jStr "u1")]]
     "u1" "s1" [("site_title", some (jStr "x"))] 2⟩

theorem probeFrom_spec (taken : List String) (base : String) (fuel : Nat) :
    ∀ (k : Nat) (s : String), probeFrom taken base fuel k = some s →
    ∃ m, k ≤ m ∧ s = subdomainCandidate base m ∧ s ∉ taken ∧
      ∀ j, k ≤ j → j < m → subdomainCandidate base j ∈ taken := by
  induction fuel with
  | zero => intro k s h; simp [probeFrom] at h
  | succ fuel ih =>
    intro k s h
    simp only [probeFrom] at h
    by_cases hmem : subdomainCandidate base k ∈ taken
    · rw [if_pos hmem] at h
      obtain ⟨m, hkm, hs, hnot, hall⟩ := ih (k + 1) s h
      refine ⟨m, by omega, hs, hnot, fun j hj1 hj2 => ?_⟩
      by_cases hj : j = k
      · exact hj ▸ hmem
      · exact hall j (by omega) hj2
    · rw [if_neg hmem] at h
      obtain rfl : subdomainCandidate base k = s := Option.some.inj h
      exact ⟨k, le_refl k, rfl, hmem, fun j hj1 hj2 =>
        (Nat.lt_irrefl k (Nat.lt_of_le_of_lt hj1 hj2)).elim⟩

/-- C4: For every username, subdomain generation lower-cases the
username and strips all non-alphanumeric characters to get the base
token, then returns the base token if no existing site has it,
otherwise probes `base1`, `base2`, `base3`, ... in order and returns
the first token not present; in particular "Alice" and "Alice!" both
normalize to base token `alice`, and if `alice` is taken the next
assignment is `alice1`, then `alice2`. -/
theorem subdomain_generation_first_free :
    (∀ (taken : List String) (username : String) (fuel : Nat) (s : String),
      generateUniqueSubdomain taken username fuel = some s →
      ∃ m, s = subdomainCandidate (subdomainBase username) m ∧ s ∉ taken ∧
        ∀ j, j < m → subdomainCandidate (subdomainBase username) j ∈ taken) ∧
    (∀ (taken : List String) (username : String) (fuel : Nat),
      0 < fuel → subdomainBase username ∉ taken →
      generateUniqueSubdomain taken username fuel = some (subdomainBase username)) ∧
    subdomainBase "Alice" = "alice" ∧
    subdomainBase "Alice!" = "alice" ∧
    generateUniqueSubdomain ["alice"] "Alice" 3 = some "alice1" ∧
    generateUniqueSubdomain ["alice", "alice1"] "Alice!" 3 = some "alice2" := by
  refine ⟨?_, ?_, ?_, ?_, ?_, ?_⟩
  · intro taken username fuel s h
    obtain ⟨m, _, hs, hnot, hall⟩ := probeFrom_spec taken (subdomainBase username) fuel 0 s h
    exact ⟨m, hs, hnot, fun j hj => hall j (Nat.zero_le j) hj⟩
  · intro taken username fuel hfuel hfree
    cases fuel with
    | zero => omega
    | succ fuel =>
      simp [generateUniqueSubdomain, probeFrom, subdomainCandidate, hfree]
  · decide
  · decide
  · decide
  · decide

/-- Witness for C4: the general characterization applied to a taken set
holding `alice` and `alice1`, where the generator yields `alice2` —
free, of candidate shape, with every earlier candidate taken. -/
theorem subdomain_generation_first_free_witness :
    ∃ m, "alice2" = subdomainCandidate (subdomainBase "Alice!") m ∧
      "alice2" ∉ ["alice", "alice1"] ∧
      ∀ j, j < m → subdomainCandidate (subdomainBase "Alice!") j ∈ ["alice", "alice1"] :=
  subdomain_generation_first_free.1 ["alice", "alice1"] "Alice!" 3 "alice2" (by decide)

/-- C5 counterexample: the code does not answer every authentication
failure with 401 — an invalid or expired bearer token is answered with
status 403 (`AUTH_TOKEN_INVALID`), and bad login credentials are
answered with status 400 (`INVALID_CREDENTIALS`). -/
theorem auth_failure_status_counterexample :
    authenticateToken [] TokenState.invalid = .error (403, "AUTH_TOKEN_INVALID") ∧
    (loginHandler [[("id", jStr "u1"), ("username", jStr "bob"),
        ("email", jStr "b@x.com"), ("password_hash", jStr "secret1")]]
      (some (jStr "bob")) none (some (jStr "wrong"))).1 = 400 ∧
    (403 : Nat) ≠ 401 ∧ (400 : Nat) ≠ 401 := by
  refine ⟨rfl, ?_, by decide, by decide⟩
  decide

/-- C5 amended: the HTTP status is a direct function of the failure
kind, but the authentication mapping is: absent token → 401; verified
token matching no user → 401; invalid or expired token → 403; and the
login endpoint answers every failure, bad credentials included, with
400 (and success with 200), never 401. -/
theorem auth_failure_status_mapping :
    (∀ users : List Row,
      authenticateToken users .missing = .error (401, "AUTH_TOKEN_MISSING")) ∧
    (∀ users : List Row,
      authenticateToken users .invalid = .error (403, "AUTH_TOKEN_INVALID")) ∧
    (∀ (users : List Row) (uid : String),
      users.find? (fun r => rowGet r "id" == some (jStr uid)) = none →
      authenticateToken users (.validFor uid) = .error (401, "AUTH_USER_NOT_FOUND")) ∧
    (∀ (users : List Row) (uid : String) (r : Row),
      users.find? (fun r => rowGet r "id" == some (jStr uid)) = some r →
      authenticateToken users (.validFor uid) = .ok r) ∧
    (∀ (users : List Row) (username email password : Option JsonVal),
      (loginHandler users username email password).1 = 400 ∨
      (loginHandler users username email password).1 = 200) := by
  refine ⟨fun _ => rfl, fun _ => rfl, ?_, ?_, ?_⟩
  · intro users uid h
    simp [authenticateToken, h]
  · intro users uid r h
    simp [authenticateToken, h]
  · intro users username email password
    unfold loginHandler
    by_cases hval : (jsFalsy (if username.isSome then username else email) ||
        jsFalsy password) = true
    · left; simp [hval]
    · simp only [hval, Bool.false_eq_true, if_false]
      cases hfind : users.find? (fun r =>
          rowGet r "username" ==
            some (jsLowerTrim ((if username.isSome then username else email).getD jNull)) ||
          rowGet r "email" ==
            some (jsLowerTrim ((if username.isSome then username else email).getD jNull))) with
      | none => left; rfl
      | some user =>
        by_cases hpw : (password == rowGet user "password_hash") = true
        · right; simp [hpw]
        · left; simp [hpw]

/-- Witness for C5 (amended): a verified token whose user id matches no
row is answered 401, and a verified token with a matching row attaches
that row. -/
theorem auth_failure_status_mapping_witness :
    authenticateToken [] (TokenState.validFor "ghost") =
      .error (401, "AUTH_USER_NOT_FOUND") ∧
    authenticateToken [[("id", jStr "u1"), ("username", jStr "bob")]]
        (TokenState.validFor "u1") =
      .ok [("id", jStr "u1"), ("username", jStr "bob")] :=
  ⟨auth_failure_status_mapping.2.2.1 [] "ghost" (by decide),
   auth_failure_status_mapping.2.2.2.1 [[("id", jStr "u1"), ("username", jStr "bob")]]
     "u1" [("id", jStr "u1"), ("username", jStr "bob")] (by decide)⟩

/-- C6 counterexample: GET /api/sites/:site_id is registered without
the authentication middleware although it is not among the endpoints
the claim exempts (public profile fetch, registration, login, contact
submission, help docs). -/
theorem public_routes_counterexample :
    (⟨"GET", "/api/sites/:site_id", false⟩ : RouteEntry) ∈ apiRoutes ∧
    ("GET", "/api/sites/:site_id") ∉ specPublicRoutes := by decide

/-- C6 amended: the endpoints registered without the bearer-token
middleware are exactly the claimed five public ones plus single-site
fetch, a site's project list, the dashboard preview stub, the health
check and the SPA fallback; every other endpoint carries the
middleware, and a request that fails authentication is rejected before
the endpoint handler runs: the database is unchanged and only the
middleware's own user lookup was issued. -/
theorem public_routes_exact :
    (∀ r ∈ apiRoutes, r.requiresAuth = false ↔ (r.method, r.path) ∈ actualPublicRoutes) ∧
    (∀ (users : List Row) (t : TokenState) (e : Nat × String)
       (handler : Row → HandlerResult × List Row × List DbOp) (db : List Row),
      authenticateToken users t = .error e →
      runProtected users t handler db = (.err e.1 e.2, db, authTrace t)) := by
  constructor
  · decide
  · intro users t e handler db h
    simp [runProtected, h]

/-- Witness for C6 (amended): the project-update route requires a
token, the site-fetch route does not, and a request with a missing
token against a protected handler is rejected with the database
untouched. -/
theorem public_routes_exact_witness :
    ((⟨"PUT", "/api/sites/:site_id", true⟩ : RouteEntry).requiresAuth = false ↔
      ("PUT", "/api/sites/:site_id") ∈ actualPublicRoutes) ∧
    ((⟨"GET", "/api/sites/:site_id", false⟩ : RouteEntry).requiresAuth = false ↔
      ("GET", "/api/sites/:site_id") ∈ actualPublicRoutes) ∧
    runProtected [] TokenState.missing
        (fun _ => (.ok 200 [], [[("boom", jNull)]], [.delete "users" "all"]))
        [[("site_id", jStr "s1")]] =
      (.err 401 "AUTH_TOKEN_MISSING", [[("site_id", jStr "s1")]], []) :=
  ⟨public_routes_exact.1 ⟨"PUT", "/api/sites/:site_id", true⟩ (by decide),
   public_routes_exact.1 ⟨"GET", "/api/sites/:site_id", false⟩ (by decide),
   public_routes_exact.2 [] TokenState.missing (401, "AUTH_TOKEN_MISSING")
     (fun _ => (.ok 200 [], [[("boom", jNull)]], [.delete "users" "all"]))
     [[("site_id", jStr "s1")]] rfl⟩

/-- C7: For every site owned by the requesting principal, each call to
the publish endpoint sets `published_at` to that call's current
timestamp — so a second call overwrites the first call's value — and
changes no other content field of the site row except `updated_at`; in
particular `subdomain` is left unchanged (it is generated only once, at
site creation; the publish UPDATE assigns no other column). -/
theorem publish_overwrites_timestamp_only :
    (∀ (r : Row) (t : Int) (k : String), k ≠ "published_at" → k ≠ "updated_at" →
      rowGet (applySet r [("published_at", jNum t), ("updated_at", jNum t)]) k =
        rowGet r k) ∧
    (∀ (db : List Row) (principal sid : String) (t1 t2 : Int) (siteRow : Row),
      db.find? (fun r => rowGet r "site_id" == some (jStr sid)) = some siteRow →
      rowGet siteRow "user_id" = some (jStr principal) →
      "published_at" ∈ siteRow.map Prod.fst →
      ∃ finalRow,
        (publishSiteHandler ((publishSiteHandler db principal sid t1).2.1)
            principal sid t2).1 = .ok 200 finalRow ∧
        rowGet finalRow "published_at" = some (jNum t2) ∧
        ∀ k, k ≠ "published_at" → k ≠ "updated_at" →
          rowGet finalRow k = rowGet siteRow k) := by
  have hframe : ∀ (r : Row) (t : Int) (k : String),
      k ≠ "published_at" → k ≠ "updated_at" →
      rowGet (applySet r [("published_at", jNum t), ("updated_at", jNum t)]) k =
        rowGet r k := by
    intro r t k h1 h2
    exact rowGet_applySet_not_mem r _ k (by simp [h1, h2])
  refine ⟨hframe, ?_⟩
  intro db principal sid t1 t2 siteRow hfind hown hmem
  have hbeq : (rowGet siteRow "user_id" == some (jStr principal)) = true := by
    simp [hown]
  have hdb1 : (publishSiteHandler db principal sid t1).2.1 =
      db.map (fun r => if rowGet r "site_id" == some (jStr sid) then
        applySet r [("published_at", jNum t1), ("updated_at", jNum t1)] else r) := by
    simp [publishSiteHandler, hfind, hbeq]
  have hpred : ∀ r : Row,
      (rowGet (if rowGet r "site_id" == some (jStr sid) then
          applySet r [("published_at", jNum t1), ("updated_at", jNum t1)] else r)
        "site_id" == some (jStr sid)) =
      (rowGet r "site_id" == some (jStr sid)) := by
    intro r
    by_cases hr : (rowGet r "site_id" == some (jStr sid)) = true
    · rw [if_pos hr]
      rw [rowGet_applySet_not_mem r _ "site_id" (by simp)]
    · rw [if_neg (by simpa using hr)]
  have hfind1 : ((publishSiteHandler db principal sid t1).2.1).find?
      (fun r => rowGet r "site_id" == some (jStr sid)) =
      some (applySet siteRow [("published_at", jNum t1), ("updated_at", jNum t1)]) := by
    rw [hdb1, find?_map_of_pred_invariant _ _ _ hpred, hfind]
    have hsat := List.find?_some hfind
    simp [hsat]
    intro hcontra
    exact absurd (by simpa using hsat) hcontra
  have hown1 : (rowGet (applySet siteRow
      [("published_at", jNum t1), ("updated_at", jNum t1)]) "user_id" ==
      some (jStr principal)) = true := by
    rw [rowGet_applySet_not_mem siteRow _ "user_id" (by simp)]
    exact hbeq
  have hstep : ∀ (db1 : List Row),
      db1.find? (fun r => rowGet r "site_id" == some (jStr sid)) =
        some (applySet siteRow [("published_at", jNum t1), ("updated_at", jNum t1)]) →
      (publishSiteHandler db1 principal sid t2).1 =
        .ok 200 (applySet (applySet siteRow
          [("published_at", jNum t1), ("updated_at", jNum t1)])
          [("published_at", jNum t2), ("updated_at", jNum t2)]) := by
    intro db1 h1
    simp [publishSiteHandler, h1, hown1]
  refine ⟨applySet (applySet siteRow [("published_at", jNum t1), ("updated_at", jNum t1)])
    [("published_at", jNum t2), ("updated_at", jNum t2)], ?_, ?_, ?_⟩
  · exact hstep _ hfind1
  · have hmem1 : "published_at" ∈ (applySet siteRow
        [("published_at", jNum t1), ("updated_at", jNum t1)]).map Prod.fst := by
      rw [map_fst_applySet]; exact hmem
    have hne : ("published_at" : String) ≠ "updated_at" := by decide
    calc rowGet (applySet (applySet siteRow
            [("published_at", jNum t1), ("updated_at", jNum t1)])
          [("published_at", jNum t2), ("updated_at", jNum t2)]) "published_at"
        = rowGet (rowSet (rowSet (applySet siteRow
            [("published_at", jNum t1), ("updated_at", jNum t1)])
          "published_at" (jNum t2)) "updated_at" (jNum t2)) "published_at" := by
          simp [applySet]
      _ = rowGet (rowSet (applySet siteRow
            [("published_at", jNum t1), ("updated_at", jNum t1)])
          "published_at" (jNum t2)) "published_at" := by
          rw [rowGet_rowSet_ne _ _ _ _ hne]
      _ = some (jNum t2) := rowGet_rowSet_eq _ _ _ hmem1
  · intro k h1 h2
    rw [hframe _ t2 k h1 h2, hframe _ t1 k h1 h2]

/-- Witness for C7: a concrete owned site published at 5 and then 9
ends with `published_at = 9` and its `subdomain` unchanged. -/
theorem publish_overwrites_timestamp_only_witness :
    ∃ finalRow,
      (publishSiteHandler ((publishSiteHandler
          [[("site_id", jStr "s1"), ("user_id", jStr "u1"),
            ("subdomain", jStr "alice"), ("published_at", jNull),
            ("updated_at", jNum 0)]] "u1" "s1" 5).2.1) "u1" "s1" 9).1 =
        .ok 200 finalRow ∧
      rowGet finalRow "published_at" = some (jNum 9) ∧
      ∀ k, k ≠ "published_at" → k ≠ "updated_at" →
        rowGet finalRow k =
          rowGet [("site_id", jStr "s1"), ("user_id", jStr "u1"),
            ("subdomain", jStr "alice"), ("published_at", jNull),
            ("updated_at", jNum 0)] k :=
  publish_overwrites_timestamp_only.2
    [[("site_id", jStr "s1"), ("user_id", jStr "u1"),
      ("subdomain", jStr "alice"), ("published_at", jNull), ("updated_at", jNum 0)]]
    "u1" "s1" 5 9
    [("site_id", jStr "s1"), ("user_id", jStr "u1"),
     ("subdomain", jStr "alice"), ("published_at", jNull), ("updated_at", jNum 0)]
    (by decide) (by decide) (by decide)

/-- C8: For a site with no projects, creating a project with fields
`title:"T"`, `description:"D"`, `date:"2024-01-01"`, `tags:["x"]`,
`images:[]` and then fetching that site's project list returns exactly
one project whose fields equal the input plus the server-assigned id
and order key (`order_index` defaulting to 0). -/
theorem project_create_list_roundtrip :
    ∀ (sitesDb projectsDb : List Row) (principal sid newId : String)
      (now : Int) (siteRow : Row),
      sitesDb.find? (fun r => rowGet r "site_id" == some (jStr sid)) = some siteRow →
      rowGet siteRow "user_id" = some (jStr principal) →
      (∀ r ∈ projectsDb, (rowGet r "site_id" == some (jStr sid)) = false) →
      ∃ newRow,
        createProjectHandler sitesDb projectsDb principal sid
          (some (jStr "T")) (some (jStr "D")) (some (jStr "2024-01-01"))
          (some ["x"]) none none (some []) none newId now =
          (.ok 201 newRow, projectsDb ++ [newRow],
           [.lookup "portfolio_sites" sid, .insert "portfolio_projects" newId]) ∧
        (listProjectsHandler (projectsDb ++ [newRow]) sid).2 = [newRow] ∧
        rowGet newRow "title" = some (jStr "T") ∧
        rowGet newRow "description" = some (jStr "D") ∧
        rowGet newRow "date" = some (jStr "2024-01-01") ∧
        rowGet newRow "tags" = some (jStrArr ["x"]) ∧
        rowGet newRow "images" = some (jStrArr []) ∧
        rowGet newRow "project_id" = some (jStr newId) ∧
        rowGet newRow "order_index" = some (jNum 0) := by
  intro sitesDb projectsDb principal sid newId now siteRow hfind hown hempty
  have hbeq : (rowGet siteRow "user_id" == some (jStr principal)) = true := by
    simp [hown]
  refine ⟨[("project_id", jStr newId), ("site_id", jStr sid),
    ("title", jStr "T"), ("description", jStr "D"),
    ("date", jStr "2024-01-01"), ("tags", jStrArr ["x"]),
    ("demo_url", jNull), ("code_url", jNull),
    ("images", jStrArr []), ("order_index", jNum 0),
    ("created_at", jNum now), ("updated_at", jNum now)], ?_, ?_, ?_, ?_, ?_, ?_, ?_, ?_, ?_⟩
  · simp [createProjectHandler, hfind, hbeq, jsFalsy]
    refine ⟨⟨?_, ?_⟩, ?_⟩ <;> decide
  · have hmatch : (rowGet [("project_id", jStr newId), ("site_id", jStr sid),
        ("title", jStr "T"), ("description", jStr "D"),
        ("date", jStr "2024-01-01"), ("tags", jStrArr ["x"]),
        ("demo_url", jNull), ("code_url", jNull),
        ("images", jStrArr []), ("order_index", jNum 0),
        ("created_at", jNum now), ("updated_at", jNum now)]
        "site_id" == some (jStr sid)) = true := by
      simp [rowGet]
    simp only [listProjectsHandler]
    rw [filter_append_of_no_match projectsDb _ _ hempty hmatch]
    rfl
  all_goals simp [rowGet]

/-- Witness for C8: the round trip on a concrete one-site database with
an empty project table. -/
theorem project_create_list_roundtrip_witness :
    ∃ newRow,
      createProjectHandler [[("site_id", jStr "s1"), ("user_id", jStr "u1")]] []
        "u1" "s1"
        (some (jStr "T")) (some (jStr "D")) (some (jStr "2024-01-01"))
        (some ["x"]) none none (some []) none "p1" 4 =
        (.ok 201 newRow, [] ++ [newRow],
         [.lookup "portfolio_sites" "s1", .insert "portfolio_projects" "p1"]) ∧
      (listProjectsHandler ([] ++ [newRow]) "s1").2 = [newRow] ∧
      rowGet newRow "title" = some (jStr "T") ∧
      rowGet newRow "description" = some (jStr "D") ∧
      rowGet newRow "date" = some (jStr "2024-01-01") ∧
      rowGet newRow "tags" = some (jStrArr ["x"]) ∧
      rowGet newRow "images" = some (jStrArr []) ∧
      rowGet newRow "project_id" = some (jStr "p1") ∧
      rowGet newRow "order_index" = some (jNum 0) :=
  project_create_list_roundtrip [[("site_id", jStr "s1"), ("user_id", jStr "u1")]] []
    "u1" "s1" "p1" 4 [("site_id", jStr "s1"), ("user_id", jStr "u1")]
    (by decide) (by decide) (by intro r hr; simp at hr)

/-- C9: For every site, the export operation produces an archive
containing exactly one fixed HTML document (`index.html`) whose content
does not depend on the site's stored data — for any two sites exported
at the same instant the generated HTML is identical — and returns a
storage-relative URL (`/storage/` followed by the archive file name)
for the archive, recorded on the site row. -/
theorem export_stub_fixed_html :
    (∀ (db : List Row) (principal sid nowIso : String) (nowMs now : Int)
       (siteRow : Row),
      db.find? (fun r => rowGet r "site_id" == some (jStr sid)) = some siteRow →
      rowGet siteRow "user_id" = some (jStr principal) →
      exportSiteHandler db principal sid nowIso nowMs now =
        (.ok 200 [("export_zip_url", jStr ("/storage/" ++ exportFilename sid nowMs)),
                  ("export_path", jStr ("/storage/" ++ exportFilename sid nowMs))],
         db.map (fun r => if rowGet r "site_id" == some (jStr sid) then
           applySet r [("export_zip_url", jStr ("/storage/" ++ exportFilename sid nowMs)),
                       ("updated_at", jNum now)] else r),
         [("index.html", mockHtml nowIso)])) ∧
    (∀ (sA sB nowIso : String) (nowMs : Int),
      (generateStaticSiteExport sA nowIso nowMs).1 =
        (generateStaticSiteExport sB nowIso nowMs).1) ∧
    (∀ (sid nowIso : String) (nowMs : Int),
      (generateStaticSiteExport sid nowIso nowMs).1.length = 1 ∧
      (generateStaticSiteExport sid nowIso nowMs).2 =
        "/storage/" ++ exportFilename sid nowMs) := by
  refine ⟨?_, ?_, ?_⟩
  · intro db principal sid nowIso nowMs now siteRow hfind hown
    have hbeq : (rowGet siteRow "user_id" == some (jStr principal)) = true := by
      simp [hown]
    simp [exportSiteHandler, hfind, hbeq, generateStaticSiteExport]
  · intro sA sB nowIso nowMs
    rfl
  · intro sid nowIso nowMs
    exact ⟨rfl, rfl⟩

/-- Witness for C9: exporting a concrete site yields the single fixed
`index.html` and the storage-relative URL. -/
theorem export_stub_fixed_html_witness :
    exportSiteHandler [[("site_id", jStr "s1"), ("user_id", jStr "u1"),
        ("export_zip_url", jNull), ("updated_at", jNum 0)]] "u1" "s1" "iso" 77 8 =
      (.ok 200 [("export_zip_url", jStr ("/storage/" ++ exportFilename "s1" 77)),
                ("export_path", jStr ("/storage/" ++ exportFilename "s1" 77))],
       [[("site_id", jStr "s1"), ("user_id", jStr "u1"),
         ("export_zip_url", jStr ("/storage/" ++ exportFilename "s1" 77)),
         ("updated_at", jNum 8)]],
       [("index.html", mockHtml "iso")]) := by
  rw [export_stub_fixed_html.1 [[("site_id", jStr "s1"), ("user_id", jStr "u1"),
      ("export_zip_url", jNull), ("updated_at", jNum 0)]] "u1" "s1" "iso" 77 8
      [("site_id", jStr "s1"), ("user_id", jStr "u1"),
       ("export_zip_url", jNull), ("updated_at", jNum 0)] (by decide) (by decide)]
  rfl

theorem serializeJson_cons_none (k1 : String) (rest : JsObject) :
    serializeJson ((k1, none) :: rest) = serializeJson rest := by
  simp [serializeJson, List.filterMap_cons]

theorem serializeJson_cons_some (k1 : String) (v0 : JsonVal) (rest : JsObject) :
    serializeJson ((k1, some v0) :: rest) = (k1, v0) :: serializeJson rest := by
  simp [serializeJson, List.filterMap_cons]

theorem mem_map_fst_serializeJson (o : JsObject) (k : String) :
    k ∈ (serializeJson o).map Prod.fst ↔ ∃ v, (k, some v) ∈ o := by
  induction o with
  | nil => simp [serializeJson]
  | cons kv rest ih =>
    obtain ⟨k1, v1⟩ := kv
    cases v1 with
    | none =>
      rw [serializeJson_cons_none, ih]
      constructor
      · rintro ⟨v, hv⟩
        exact ⟨v, List.mem_cons_of_mem _ hv⟩
      · rintro ⟨v, hv⟩
        rcases List.mem_cons.mp hv with h | h
        · injection h with h1 h2
          exact Option.noConfusion h2
        · exact ⟨v, h⟩
    | some v0 =>
      rw [serializeJson_cons_some]
      simp only [List.map_cons, List.mem_cons]
      rw [ih]
      constructor
      · rintro (rfl | ⟨v, hv⟩)
        · exact ⟨v0, Or.inl rfl⟩
        · exact ⟨v, Or.inr hv⟩
      · rintro ⟨v, hv⟩
        rcases hv with h | h
        · injection h with h1 h2
          exact Or.inl h1
        · exact Or.inr ⟨v, h⟩

theorem mem_serializeJson_of_mem (o : JsObject) (k : String) (v : JsonVal)
    (h : (k, some v) ∈ o) : (k, v) ∈ serializeJson o := by
  induction o with
  | nil => simp at h
  | cons kv rest ih =>
    obtain ⟨k1, v1⟩ := kv
    rcases List.mem_cons.mp h with heq | hmem
    · injection heq with h1 h2
      subst h1
      rw [← h2, serializeJson_cons_some]
      exact List.mem_cons_self _ _
    · cases v1 with
      | none =>
        rw [serializeJson_cons_none]
        exact ih hmem
      | some v0 =>
        rw [serializeJson_cons_some]
        exact List.mem_cons_of_mem _ (ih hmem)

theorem rowGet_selectColumns_not_mem (r : Row) (cols : List String) (k : String)
    (h : k ∉ cols) : rowGet (selectColumns r cols) k = none := by
  induction cols with
  | nil => rfl
  | cons c rest ih =>
    simp only [List.mem_cons, not_or] at h
    cases hv : rowGet r c with
    | none =>
      simpa [selectColumns, List.filterMap_cons, hv] using ih h.2
    | some v =>
      simp only [selectColumns, List.filterMap_cons, hv, Option.map_some']
      rw [rowGet]
      rw [if_neg (by simpa using fun he => h.1 he.symm)]
      simpa [selectColumns] using ih h.2

theorem not_mem_map_fst_selectColumns (r : Row) (cols : List String) (k : String)
    (h : k ∉ cols) : k ∉ (selectColumns r cols).map Prod.fst := by
  induction cols with
  | nil => simp [selectColumns]
  | cons c rest ih =>
    simp only [List.mem_cons, not_or] at h
    cases hv : rowGet r c with
    | none =>
      simpa [selectColumns, List.filterMap_cons, hv] using ih h.2
    | some v =>
      simp only [selectColumns, List.filterMap_cons, hv, Option.map_some',
        List.map_cons, List.mem_cons, not_or]
      exact ⟨fun he => h.1 (he ▸ rfl), by simpa [selectColumns] using ih h.2⟩

/-- C10 counterexample: a successful registration's response user
object does NOT include `password_hash` — the register INSERT's
RETURNING column list omits it, so the response property is
`undefined` and JSON serialization drops the key. -/
theorem register_password_hash_absent :
    registerHandler [] (some (jStr "bob")) (some (jStr "b@x.com"))
        (some (jStr "secret1")) none none "u1" 0 =
      (201,
       some [("id", jStr "u1"), ("username", jStr "bob"), ("email", jStr "b@x.com"),
             ("full_name", jNull), ("avatar_url", jNull),
             ("is_active", jBool true), ("created_at", jNum 0)],
       [[("id", jStr "u1"), ("username", jStr "bob"), ("email", jStr "b@x.com"),
         ("password_hash", jStr "secret1"), ("full_name", jNull),
         ("avatar_url", jNull), ("is_active", jBool true), ("created_at", jNum 0)]]) ∧
    "password_hash" ∉
      ([("id", jStr "u1"), ("username", jStr "bob"), ("email", jStr "b@x.com"),
        ("full_name", jNull), ("avatar_url", jNull),
        ("is_active", jBool true), ("created_at", jNum 0)] : Row).map Prod.fst := by
  decide

/-- C10 amended: every successful login response includes
`password_hash` carrying the stored value (the plaintext password the
login comparison just matched verbatim); the registration response
does not include the field (its RETURNING projection omits the column
and serialization drops the undefined property); and the public
profile endpoint never includes it. -/
theorem password_hash_exposure :
    (∀ (users : List Row) (username email password : Option JsonVal)
       (body : List (String × JsonVal)),
      loginHandler users username email password = (200, some body) →
      ∃ v, password = some v ∧ ("password_hash", v) ∈ body) ∧
    (∀ (users : List Row) (username email password full_name avatar : Option JsonVal)
       (new_id : String) (now : Int) (body : List (String × JsonVal)),
      (registerHandler users username email password full_name avatar new_id now).2.1 =
        some body →
      "password_hash" ∉ body.map Prod.fst) ∧
    (∀ (users : List Row) (uid : String) (body : List (String × JsonVal)),
      (publicProfileHandler users uid).2 = some body →
      "password_hash" ∉ body.map Prod.fst) := by
  refine ⟨?_, ?_, ?_⟩
  · intro users username email password body h
    simp only [loginHandler] at h
    split at h <;>
    · split at h
      case isTrue => simp at h
      case isFalse =>
        rename_i hval
        split at h
        case h_1 => simp at h
        case h_2 =>
          rename_i user hfind
          split at h
          case isFalse => simp at h
          case isTrue =>
            rename_i hpw
            simp only [Prod.mk.injEq, true_and] at h
            have hnp : jsFalsy password ≠ true := fun hc => hval (by simp [hc])
            obtain ⟨v, hv⟩ : ∃ v, password = some v := by
              cases password with
              | none => exact absurd rfl hnp
              | some v => exact ⟨v, rfl⟩
            refine ⟨v, hv, ?_⟩
            have hbody : serializeJson (userResponseObject user) = body := by
              simpa using h
            rw [← hbody]
            apply mem_serializeJson_of_mem
            have hpw' : password = rowGet user "password_hash" := by
              simpa using hpw
            have hstored : rowGet user "password_hash" = some v := by
              rw [← hpw']; exact hv
            simp [userResponseObject, hstored]
  · intro users username email password full_name avatar new_id now body h
    simp only [registerHandler] at h
    split at h
    · simp at h
    · split at h
      · simp at h
      · split at h
        · simp at h
        · simp only [Option.some.injEq] at h
          intro hmem
          rw [← h] at hmem
          rw [mem_map_fst_serializeJson] at hmem
          obtain ⟨v, hv⟩ := hmem
          have hnone : rowGet (selectColumns
              [("id", jStr new_id),
               ("username", jsTrim (username.getD jNull)),
               ("email", jsLowerTrim (email.getD jNull)),
               ("password_hash", password.getD jNull),
               ("full_name", jsTrimOrNull full_name),
               ("avatar_url", jsOrNull avatar),
               ("is_active", jBool true),
               ("created_at", jNum now)] registerReturningColumns)
              "password_hash" = none :=
            rowGet_selectColumns_not_mem _ _ _ (by decide)
          simp [userResponseObject, hnone] at hv
  · intro users uid body h
    simp only [publicProfileHandler] at h
    split at h
    · simp at h
    · rename_i r hfind
      have hbody : selectColumns r publicProfileColumns = body := by
        simpa using h
      rw [← hbody]
      exact not_mem_map_fst_selectColumns r publicProfileColumns "password_hash" (by decide)

/-- Witness for C10 (amended): a concrete login returns the stored
plaintext password in the body, and a concrete profile fetch returns a
body without the field. -/
theorem password_hash_exposure_witness :
    (∃ v, (some (jStr "secret1") : Option JsonVal) = some v ∧
      ("password_hash", v) ∈
        [("id", jStr "u1"), ("username", jStr "bob"), ("email", jStr "b@x.com"),
         ("password_hash", jStr "secret1"), ("full_name", jNull),
         ("avatar_url", jNull), ("is_active", jBool true), ("created_at", jNum 0)]) ∧
    "password_hash" ∉
      ([("id", jStr "u1"), ("username", jStr "bob"), ("full_name", jNull),
        ("avatar_url", jNull), ("is_active", jBool true),
        ("created_at", jNum 0)] : Row).map Prod.fst :=
  ⟨password_hash_exposure.1
     [[("id", jStr "u1"), ("username", jStr "bob"), ("email", jStr "b@x.com"),
       ("password_hash", jStr "secret1"), ("full_name", jNull),
       ("avatar_url", jNull), ("is_active", jBool true), ("created_at", jNum 0)]]
     (some (jStr "bob")) none (some (jStr "secret1"))
     [("id", jStr "u1"), ("username", jStr "bob"), ("email", jStr "b@x.com"),
      ("password_hash", jStr "secret1"), ("full_name", jNull),
      ("avatar_url", jNull), ("is_active", jBool true), ("created_at", jNum 0)]
     (by decide),
   password_hash_exposure.2.2
     [[("id", jStr "u1"), ("username", jStr "bob"), ("password_hash", jStr "secret1"),
       ("full_name", jNull), ("avatar_url", jNull), ("is_active", jBool true),
       ("created_at", jNum 0)]]
     "u1"
     [("id", jStr "u1"), ("username", jStr "bob"), ("full_name", jNull),
      ("avatar_url", jNull), ("is_active", jBool true), ("created_at", jNum 0)]
     (by decide)⟩

end PortfolioPro
